import Mathlib

/-!
Shallow embedding of `src/server.js` (Stripe webhook → Appwrite ledger).

The document store (Appwrite `databases`) is modelled as an explicit `DB`
value threaded through the handlers; `createDocument` appends with a fresh
numeric id, `listDocuments` with a `Query.equal` filter is `List.filter`,
`updateDocument` maps over the collection replacing the matching id.
JavaScript numbers in the crediting path (`paymentIntent.amount / 100`,
`parseFloat(walletDoc.balance)`) are modelled over `ℚ`: for the integer
amounts involved, the divisions by 100 used by the source are exact in
binary floating point, so `ℚ` is a faithful model of the values computed.
A thrown exception is modelled as an `HResult.error` paired with the store
state at the moment of the throw (server-side writes already performed are
not rolled back, exactly as in the source).
-/

namespace StripeWebHook

/-- The `metadata` object of a Stripe payment intent, as read by the source
(fields `userId` and `purpose`, each possibly absent). -/
structure Metadata where
  userId : Option String
  purpose : Option String
deriving Repr, DecidableEq

/-- The fields of `event.data.object` that `server.js` reads. `amount` is
Stripe's integer amount in minor units; `currency` and `metadata` may be
absent (JS `undefined`/`null`). -/
structure PaymentIntent where
  id : String
  amount : Int
  currency : Option String
  metadata : Option Metadata
  payment_method_types : List String
deriving Repr, DecidableEq

/-- A wallet document (collection `APPWRITE_COLLECTION_WALLET_ID`).
The source stores `balance` as a decimal string and reads it back with
`parseFloat`; the round-tripped numeric value is modelled directly. -/
structure Wallet where
  docId : Nat
  userId : String
  balance : ℚ
  currency : String
deriving Repr, DecidableEq

/-- A transaction document (collection `APPWRITE_COLLECTION_TRANSACTIONS_ID`),
with the exact fields written at lines 174-186 of `server.js`. -/
structure Transaction where
  docId : Nat
  walletId : Nat
  txType : String
  amount : ℚ
  currency : String
  paymentId : String
  statutTransfer : String
deriving Repr, DecidableEq

/-- A payment record document (collection `APPWRITE_COLLECTION_ID`) as read
and updated by `handlePaymentIntentSucceeded`. -/
structure PaymentRecord where
  docId : Nat
  paymentId : String
  paymentStatus : String
  paymentMethod : String
deriving Repr, DecidableEq

/-- The three Appwrite collections the handlers touch, plus a counter
modelling `'unique()'` id generation. -/
structure DB where
  wallets : List Wallet
  transactions : List Transaction
  payments : List PaymentRecord
  nextId : Nat
deriving Repr, DecidableEq

def DB.empty : DB := ⟨[], [], [], 0⟩

/-- Outcome of an async handler: normal return, or a thrown `Error`. -/
inductive HResult where
  | ok : HResult
  | error : String → HResult
deriving Repr, DecidableEq

/-- JS falsiness of a possibly-absent string (`!userId` is true for
`undefined` and for the empty string). -/
def strFalsy : Option String → Bool
  | none => true
  | some s => s = ""

/-- Lines 139-163 of `handlePaymentIntentWallet`: `listDocuments` on the
wallet collection filtered by `userId`; if no document matches, create one
with `balance: '0'` and `currency: paymentIntent.currency || 'usd'`.
Returns the `walletDoc` snapshot the rest of the handler uses, and the
store state after the (possible) creation. -/
def walletLookup (p : PaymentIntent) (userId : String) (db : DB) : Wallet × DB :=
  match db.wallets.filter (fun w => w.userId = userId) with
  | [] =>
      let w : Wallet := ⟨db.nextId, userId, 0, p.currency.getD "usd"⟩
      (w, { db with wallets := db.wallets ++ [w], nextId := db.nextId + 1 })
  | w :: _ => (w, db)

/-- Lines 165-203 of `handlePaymentIntentWallet`: compute
`amountToAdd = paymentIntent.amount / 100`, throw if it is not positive,
create the deposit transaction document, then write
`balance = parseFloat(walletDoc.balance) + amountToAdd` back to the wallet
document unconditionally. `walletDoc` is the snapshot from `walletLookup`;
the balance is never re-read before the write. -/
def walletCommit (p : PaymentIntent) (walletDoc : Wallet) (db : DB) : HResult × DB :=
  let amountToAdd : ℚ := (p.amount : ℚ) / 100
  if amountToAdd ≤ 0 then
    (HResult.error "Invalid deposit amount", db)
  else
    let tx : Transaction :=
      ⟨db.nextId, walletDoc.docId, "deposit", amountToAdd,
        p.currency.getD "usd", p.id, "completed"⟩
    let db1 := { db with transactions := db.transactions ++ [tx], nextId := db.nextId + 1 }
    let newBalance := walletDoc.balance + amountToAdd
    let updated := db1.wallets.map
      (fun w => if w.docId = walletDoc.docId then { w with balance := newBalance } else w)
    let db2 := { db1 with wallets := updated }
    (HResult.ok, db2)

/-- `handlePaymentIntentWallet` (lines 126-211): read
`paymentIntent.metadata.userId` (a `TypeError` if `metadata` is absent),
throw if it is falsy, then wallet lookup/creation followed by the
transaction append and unconditional balance write. -/
def handlePaymentIntentWallet (p : PaymentIntent) (db : DB) : HResult × DB :=
  match p.metadata with
  | none => (HResult.error "TypeError: cannot read userId", db)
  | some m =>
      if strFalsy m.userId then
        (HResult.error "Missing userId in payment metadata", db)
      else
        let uid := m.userId.getD ""
        let lk := walletLookup p uid db
        walletCommit p lk.1 lk.2

/-- `handlePaymentIntentSucceeded` (lines 72-123): find the payment record
whose `paymentId` equals the intent id; if found, update its status to
`'paid'` and record the payment method; otherwise only log (the
`createDocument` branch at lines 102-116 is commented out), leaving the
store unchanged. -/
def handlePaymentIntentSucceeded (p : PaymentIntent) (db : DB) : DB :=
  match db.payments.filter (fun r => r.paymentId = p.id) with
  | [] => db
  | doc :: _ =>
      let updated := db.payments.map (fun r =>
        if r.docId = doc.docId then
          { r with paymentStatus := "paid",
                   paymentMethod := p.payment_method_types.headD "" }
        else r)
      { db with payments := updated }

/-- A Stripe event as the webhook sees it: `event.type` and
`event.data.object`. -/
structure StripeEvent where
  etype : String
  obj : PaymentIntent
deriving Repr, DecidableEq

/-- Truthiness of `event.data.object.metadata && event.data.object.metadata.purpose`
(line 46). -/
def purposeTruthy (p : PaymentIntent) : Bool :=
  match p.metadata with
  | none => false
  | some m => !(strFalsy m.purpose)

/-- The `/webhook` POST handler (lines 24-69). `sigValid` models the
outcome of `stripe.webhooks.constructEvent`: on verification failure the
handler returns 400 before any dispatch; otherwise it switches on the
event type, routes `payment_intent.succeeded` by purpose tag, logs-only on
`payment_intent.payment_failed` and on unknown types, answers 200, and the
catch block turns any thrown handler error into a 500. -/
def webhookPost (sigValid : Bool) (ev : StripeEvent) (db : DB) : Nat × DB :=
  if sigValid = false then (400, db)
  else if ev.etype = "payment_intent.succeeded" then
    if purposeTruthy ev.obj then
      if ev.obj.metadata.bind Metadata.purpose = some "wallet" then
        match handlePaymentIntentWallet ev.obj db with
        | (HResult.ok, db1) => (200, db1)
        | (HResult.error _, db1) => (500, db1)
      else (200, db)
    else (200, handlePaymentIntentSucceeded ev.obj db)
  else if ev.etype = "payment_intent.payment_failed" then (200, db)
  else (200, db)

/-- Number of transaction documents carrying a given `paymentId`. -/
def txCountFor (db : DB) (ref : String) : Nat :=
  (db.transactions.filter (fun t => t.paymentId = ref)).length

/-- Balance of the first wallet document of a user, if any. -/
def balanceOf (db : DB) (userId : String) : Option ℚ :=
  match db.wallets.filter (fun w => w.userId = userId) with
  | [] => none
  | w :: _ => some w.balance

/-- Two concurrent executions of the wallet handler interleaved at the
granularity of the document-store calls, under the schedule in which both
`listDocuments` wallet lookups complete before either task performs its
transaction append and unconditional balance write. Built from the same
`walletLookup`/`walletCommit` phases as `handlePaymentIntentWallet`. -/
def interleavedDeposits (p1 p2 : PaymentIntent) (u1 u2 : String) (db : DB) :
    HResult × HResult × DB :=
  let l1 := walletLookup p1 u1 db
  let l2 := walletLookup p2 u2 l1.2
  let c1 := walletCommit p1 l1.1 l2.2
  let c2 := walletCommit p2 l2.1 c1.2
  (c1.1, c2.1, c2.2)

/-- Scenario A event: reference pr_1, user u1, 500 minor units, wallet purpose. -/
def evA : PaymentIntent := ⟨"pr_1", 500, some "usd", some ⟨some "u1", some "wallet"⟩, ["card"]⟩

/-- Scenario C event: reference pr_2, user u1, 300 minor units. -/
def evC : PaymentIntent := ⟨"pr_2", 300, some "usd", some ⟨some "u1", some "wallet"⟩, ["card"]⟩

/-- Wallet-purpose event with no userId in its metadata. -/
def evNoUser : PaymentIntent := ⟨"pr_m", 500, some "usd", some ⟨none, some "wallet"⟩, ["card"]⟩

/-- Wallet-purpose event with amount 0. -/
def evZero : PaymentIntent := ⟨"pr_z", 0, some "usd", some ⟨some "u1", some "wallet"⟩, ["card"]⟩

/-- Wallet-purpose event whose amount 550 is not a multiple of 100. -/
def ev550 : PaymentIntent := ⟨"pr_x", 550, some "usd", some ⟨some "u1", some "wallet"⟩, ["card"]⟩

/-- First of two distinct-reference 100-minor-unit deposits for user u1. -/
def evA100 : PaymentIntent := ⟨"pr_a", 100, some "usd", some ⟨some "u1", some "wallet"⟩, []⟩

/-- Second of two distinct-reference 100-minor-unit deposits for user u1. -/
def evB100 : PaymentIntent := ⟨"pr_b", 100, some "usd", some ⟨some "u1", some "wallet"⟩, []⟩

/-- Succeeded event whose purpose tag is set but unknown. -/
def evOther : PaymentIntent := ⟨"pr_o", 500, some "usd", some ⟨some "u1", some "topup"⟩, []⟩

/-- Succeeded event with no metadata at all (no purpose tag). -/
def evPlain : PaymentIntent := ⟨"pr_p", 500, some "usd", none, ["card"]⟩

/-- An event of a type other than the two the switch handles. -/
def evRefund : StripeEvent := ⟨"charge.refunded", evPlain⟩

/-- A store holding exactly one wallet for u1 with balance 0. -/
def dbOneWallet : DB := ⟨[⟨0, "u1", 0, "usd"⟩], [], [], 1⟩

/-- The store after applying `evA` to the empty store: one wallet for u1
with balance 5 and one deposit transaction of 5 referencing pr_1. -/
def dbAfterA : DB :=
  ⟨[⟨0, "u1", 5, "usd"⟩], [⟨1, 0, "deposit", 5, "usd", "pr_1", "completed"⟩], [], 2⟩

end StripeWebHook

namespace StripeWebHook

/-! ### Helper lemmas about the handlers -/

/-- A wallet-purpose intent whose metadata lacks a userId makes the handler
throw before any document-store operation. -/
theorem handleWallet_missing_user (p : PaymentIntent) (db : DB) (m : Metadata)
    (hm : p.metadata = some m) (hu : strFalsy m.userId = true) :
    handlePaymentIntentWallet p db = (HResult.error "Missing userId in payment metadata", db) := by
  unfold handlePaymentIntentWallet
  rw [hm]
  simp [hu]

/-- A wallet-purpose intent with a non-positive amount makes the handler
throw after the wallet lookup/creation but before the transaction append
and balance write: transactions are untouched and the wallet collection is
either unchanged or extended by one zero-balance wallet. -/
theorem handleWallet_nonpos (p : PaymentIntent) (db : DB) (m : Metadata)
    (hm : p.metadata = some m) (hu : strFalsy m.userId = false) (ha : p.amount ≤ 0) :
    (handlePaymentIntentWallet p db).1 = HResult.error "Invalid deposit amount" ∧
    (handlePaymentIntentWallet p db).2.transactions = db.transactions ∧
    ((handlePaymentIntentWallet p db).2.wallets = db.wallets ∨
      ∃ w : Wallet, w.balance = 0 ∧
        (handlePaymentIntentWallet p db).2.wallets = db.wallets ++ [w]) := by
  have hq : ((p.amount : ℚ)) / 100 ≤ 0 :=
    div_nonpos_of_nonpos_of_nonneg (by exact_mod_cast ha) (by norm_num)
  unfold handlePaymentIntentWallet walletCommit
  rw [hm]
  simp only [hu, Bool.false_eq_true, if_false]
  rw [if_pos hq]
  unfold walletLookup
  cases hfil : db.wallets.filter (fun w => w.userId = m.userId.getD "") with
  | nil => simp [hfil]
  | cons w ws => simp [hfil]

/-- Routing (lines 43-53): a verified succeeded event with purpose
`wallet` is handed to `handlePaymentIntentWallet`; a normal return is
acknowledged with 200, a thrown error is caught and answered with 500. -/
theorem webhook_wallet_route (p : PaymentIntent) (db : DB) (m : Metadata)
    (hm : p.metadata = some m) (hp : m.purpose = some "wallet") :
    webhookPost true ⟨"payment_intent.succeeded", p⟩ db =
      (match handlePaymentIntentWallet p db with
       | (HResult.ok, db1) => (200, db1)
       | (HResult.error _e, db1) => (500, db1)) := by
  unfold webhookPost purposeTruthy
  simp +decide [hm, hp, strFalsy]

/-- Routing: a succeeded event with a truthy purpose other than `wallet`
is logged and ignored. -/
theorem webhook_other_purpose (p : PaymentIntent) (db : DB) (m : Metadata) (s : String)
    (hm : p.metadata = some m) (hp : m.purpose = some s) (hw : s ≠ "wallet") (he : s ≠ "") :
    webhookPost true ⟨"payment_intent.succeeded", p⟩ db = (200, db) := by
  unfold webhookPost purposeTruthy
  simp +decide [hm, hp, strFalsy, he, hw]

/-- Routing: a succeeded event with no (truthy) purpose goes to the
generic `handlePaymentIntentSucceeded` handler. -/
theorem webhook_no_purpose (p : PaymentIntent) (db : DB)
    (hp : purposeTruthy p = false) :
    webhookPost true ⟨"payment_intent.succeeded", p⟩ db =
      (200, handlePaymentIntentSucceeded p db) := by
  unfold webhookPost
  simp +decide [hp]

/-- Signature verification failure answers 400 before any dispatch. -/
theorem webhook_bad_sig (ev : StripeEvent) (db : DB) :
    webhookPost false ev db = (400, db) := by
  unfold webhookPost
  simp

/-- Event types outside the switch are accepted and ignored with 200. -/
theorem webhook_unknown_type (ev : StripeEvent) (db : DB)
    (h1 : ev.etype ≠ "payment_intent.succeeded")
    (h2 : ev.etype ≠ "payment_intent.payment_failed") :
    webhookPost true ev db = (200, db) := by
  unfold webhookPost
  simp [h1, h2]

/-- A `payment_intent.payment_failed` event is logged only (the failure
handler call is commented out) and acknowledged with 200. -/
theorem webhook_failed_type (p : PaymentIntent) (db : DB) :
    webhookPost true ⟨"payment_intent.payment_failed", p⟩ db = (200, db) := by
  unfold webhookPost
  simp +decide

/-! ### Claim theorems -/

/-- C1: the source consults no idempotency guard on the payment reference.
Delivering the Scenario A event (`pr_1`, 500, user u1) a second time is
accepted again (`ok`, not `AlreadyApplied`), creates a second deposit
transaction for `pr_1` and increments the balance a second time
(balance 10 = twice 500/100), refuting exactly-once application. -/
theorem c1_redelivery_credits_twice :
    (handlePaymentIntentWallet evA (handlePaymentIntentWallet evA DB.empty).2).1 = HResult.ok ∧
    txCountFor (handlePaymentIntentWallet evA (handlePaymentIntentWallet evA DB.empty).2).2 "pr_1" = 2 ∧
    balanceOf (handlePaymentIntentWallet evA (handlePaymentIntentWallet evA DB.empty).2).2 "u1" = some 10 := by
  refine ⟨?_, ?_, ?_⟩ <;>
    norm_num +decide [handlePaymentIntentWallet, walletLookup, walletCommit, txCountFor,
      balanceOf, evA, DB.empty, strFalsy]

/-- C2 counterexample: a wallet-purpose event with amount 0 for a user
with no wallet is rejected, yet a wallet document has been created — the
amount check at line 169 of `server.js` runs after the wallet
lookup/creation at lines 148-163, so the claim "produces no Wallet" is
false as stated. -/
theorem c2_zero_amount_creates_wallet :
    (handlePaymentIntentWallet evZero DB.empty).1 = HResult.error "Invalid deposit amount" ∧
    (handlePaymentIntentWallet evZero DB.empty).2.wallets = [⟨0, "u1", 0, "usd"⟩] := by
  refine ⟨?_, ?_⟩ <;>
    norm_num +decide [handlePaymentIntentWallet, walletLookup, walletCommit, evZero,
      DB.empty, strFalsy]

/-- C2 (amended): an event with `subjectUserId` absent is rejected with no
mutation at all; an event with non-positive amount is rejected with no
Transaction created and no balance changed, but when the user has no
wallet a zero-balance Wallet document has already been created by the time
the amount is checked. -/
theorem c2_rejection_frame (p : PaymentIntent) (db : DB) :
    (∀ m, p.metadata = some m → strFalsy m.userId = true →
      handlePaymentIntentWallet p db = (HResult.error "Missing userId in payment metadata", db)) ∧
    (∀ m, p.metadata = some m → strFalsy m.userId = false → p.amount ≤ 0 →
      (handlePaymentIntentWallet p db).1 = HResult.error "Invalid deposit amount" ∧
      (handlePaymentIntentWallet p db).2.transactions = db.transactions ∧
      ((handlePaymentIntentWallet p db).2.wallets = db.wallets ∨
        ∃ w : Wallet, w.balance = 0 ∧
          (handlePaymentIntentWallet p db).2.wallets = db.wallets ++ [w])) :=
  ⟨fun m hm hu => handleWallet_missing_user p db m hm hu,
   fun m hm hu ha => handleWallet_nonpos p db m hm hu ha⟩

/-- Witness for C2: the amended theorem applied to `evNoUser` (missing
user) and `evZero` (zero amount) on the empty store. -/
theorem c2_rejection_frame_witness :
    handlePaymentIntentWallet evNoUser DB.empty =
      (HResult.error "Missing userId in payment metadata", DB.empty) ∧
    (handlePaymentIntentWallet evZero DB.empty).1 = HResult.error "Invalid deposit amount" ∧
    (handlePaymentIntentWallet evZero DB.empty).2.transactions = DB.empty.transactions ∧
    ((handlePaymentIntentWallet evZero DB.empty).2.wallets = DB.empty.wallets ∨
      ∃ w : Wallet, w.balance = 0 ∧
        (handlePaymentIntentWallet evZero DB.empty).2.wallets = DB.empty.wallets ++ [w]) :=
  ⟨(c2_rejection_frame evNoUser DB.empty).1 ⟨none, some "wallet"⟩ rfl rfl,
   (c2_rejection_frame evZero DB.empty).2 ⟨some "u1", some "wallet"⟩ rfl rfl (by decide)⟩

/-- C3: the code divides the amount by 100 (line 166), so the Scenario A
event with 500 minor units yields a wallet whose stored balance is 5, not
500, with exactly one deposit transaction for `pr_1`; the second distinct
deposit of 300 yields balance 8, not 800, with two transactions total.
The transaction counts of the claim hold; the balances are recorded in
major units. -/
theorem c3_first_and_second_deposit_values :
    balanceOf (handlePaymentIntentWallet evA DB.empty).2 "u1" = some 5 ∧
    txCountFor (handlePaymentIntentWallet evA DB.empty).2 "pr_1" = 1 ∧
    (handlePaymentIntentWallet evA DB.empty).2.transactions.length = 1 ∧
    balanceOf (handlePaymentIntentWallet evC (handlePaymentIntentWallet evA DB.empty).2).2 "u1" = some 8 ∧
    (handlePaymentIntentWallet evC (handlePaymentIntentWallet evA DB.empty).2).2.transactions.length = 2 := by
  refine ⟨?_, ?_, ?_, ?_, ?_⟩ <;>
    norm_num +decide [handlePaymentIntentWallet, walletLookup, walletCommit, txCountFor,
      balanceOf, evA, evC, DB.empty, strFalsy]

/-- C4: the crediting path does not stay on integer minor units: a deposit
of 550 minor units persists the balance 11/2 (the source computes
`paymentIntent.amount / 100` with JS number division and round-trips the
balance through `parseFloat`), and 11/2 is not an integer of any kind. -/
theorem c4_balance_not_integer_minor_units :
    balanceOf (handlePaymentIntentWallet ev550 DB.empty).2 "u1" = some ((11 : ℚ) / 2) ∧
    ¬ ∃ n : ℤ, ((11 : ℚ) / 2) = (n : ℚ) := by
  constructor
  · norm_num +decide [handlePaymentIntentWallet, walletLookup, walletCommit,
      balanceOf, ev550, DB.empty, strFalsy]
  · rintro ⟨n, hn⟩
    have h2 : (11 : ℚ) = 2 * (n : ℚ) := by field_simp at hn; linarith
    have h3 : (11 : ℤ) = 2 * n := by exact_mod_cast h2
    omega

/-- C5 counterexample: a wallet-purpose event that fails business
validation (missing user) is not acknowledged: the thrown error reaches
the catch block at lines 65-68 and the endpoint answers 500, a retryable
failure status, refuting the claim as stated. -/
theorem c5_validation_failure_returns_500 :
    webhookPost true ⟨"payment_intent.succeeded", evNoUser⟩ DB.empty = (500, DB.empty) := by
  rw [webhook_wallet_route evNoUser DB.empty ⟨none, some "wallet"⟩ rfl rfl]
  rw [handleWallet_missing_user evNoUser DB.empty ⟨none, some "wallet"⟩ rfl rfl]

/-- C5 (amended): a wallet-purpose event that fails business validation is
logged and answered with status 500 (so the processor will retry), not
acknowledged; no Transaction is created and no balance changes, though a
zero-balance Wallet may have been created when the amount is non-positive
and the user had no wallet. -/
theorem c5_validation_500_frame (p : PaymentIntent) (db : DB) (m : Metadata)
    (hm : p.metadata = some m) (hp : m.purpose = some "wallet") :
    (strFalsy m.userId = true →
      webhookPost true ⟨"payment_intent.succeeded", p⟩ db = (500, db)) ∧
    (strFalsy m.userId = false → p.amount ≤ 0 →
      (webhookPost true ⟨"payment_intent.succeeded", p⟩ db).1 = 500 ∧
      (webhookPost true ⟨"payment_intent.succeeded", p⟩ db).2.transactions = db.transactions ∧
      ((webhookPost true ⟨"payment_intent.succeeded", p⟩ db).2.wallets = db.wallets ∨
        ∃ w : Wallet, w.balance = 0 ∧
          (webhookPost true ⟨"payment_intent.succeeded", p⟩ db).2.wallets = db.wallets ++ [w])) := by
  rw [webhook_wallet_route p db m hm hp]
  constructor
  · intro hu
    rw [handleWallet_missing_user p db m hm hu]
  · intro hu ha
    obtain ⟨h1, h2, h3⟩ := handleWallet_nonpos p db m hm hu ha
    cases hh : handlePaymentIntentWallet p db with
    | mk r d =>
      rw [hh] at h1 h2 h3
      cases r with
      | ok => simp at h1
      | error msg => simpa using ⟨h2, h3⟩

/-- Witness for C5: the amended theorem applied to `evNoUser` and
`evZero` on the empty store. -/
theorem c5_validation_500_frame_witness :
    webhookPost true ⟨"payment_intent.succeeded", evNoUser⟩ DB.empty = (500, DB.empty) ∧
    (webhookPost true ⟨"payment_intent.succeeded", evZero⟩ DB.empty).1 = 500 ∧
    (webhookPost true ⟨"payment_intent.succeeded", evZero⟩ DB.empty).2.transactions = DB.empty.transactions ∧
    ((webhookPost true ⟨"payment_intent.succeeded", evZero⟩ DB.empty).2.wallets = DB.empty.wallets ∨
      ∃ w : Wallet, w.balance = 0 ∧
        (webhookPost true ⟨"payment_intent.succeeded", evZero⟩ DB.empty).2.wallets = DB.empty.wallets ++ [w]) :=
  ⟨(c5_validation_500_frame evNoUser DB.empty ⟨none, some "wallet"⟩ rfl rfl).1 rfl,
   (c5_validation_500_frame evZero DB.empty ⟨some "u1", some "wallet"⟩ rfl rfl).2 rfl (by decide)⟩

/-- C6: the balance write is unconditional (no optimistic concurrency, no
storage transaction), so with two concurrent 100-unit deposits for u1
under the schedule in which both wallet lookups precede both commits, both
tasks succeed and both transactions are written, yet the final balance is
1 — one increment is lost — while the sequential execution of the same two
deposits ends at 2. -/
theorem c6_interleaved_deposits_lose_update :
    (interleavedDeposits evA100 evB100 "u1" "u1" dbOneWallet).1 = HResult.ok ∧
    (interleavedDeposits evA100 evB100 "u1" "u1" dbOneWallet).2.1 = HResult.ok ∧
    balanceOf (interleavedDeposits evA100 evB100 "u1" "u1" dbOneWallet).2.2 "u1" = some 1 ∧
    txCountFor (interleavedDeposits evA100 evB100 "u1" "u1" dbOneWallet).2.2 "pr_a" = 1 ∧
    txCountFor (interleavedDeposits evA100 evB100 "u1" "u1" dbOneWallet).2.2 "pr_b" = 1 ∧
    balanceOf (handlePaymentIntentWallet evB100 (handlePaymentIntentWallet evA100 dbOneWallet).2).2 "u1" = some 2 := by
  refine ⟨?_, ?_, ?_, ?_, ?_, ?_⟩ <;>
    norm_num +decide [interleavedDeposits, handlePaymentIntentWallet, walletLookup,
      walletCommit, txCountFor, balanceOf, evA100, evB100, dbOneWallet, strFalsy]

/-- C7: a `payment_intent.payment_failed` event is logged (the failure
handler call at line 57 is commented out) and answered 200 with the store
untouched: no wallet, transaction or payment record is created or
updated. -/
theorem c7_failed_event_acknowledged_without_action (p : PaymentIntent) (db : DB) :
    webhookPost true ⟨"payment_intent.payment_failed", p⟩ db = (200, db) :=
  webhook_failed_type p db

/-- C8: dispatch of a verified succeeded event is decided by the purpose
tag: purpose `wallet` routes to the wallet crediting handler (200 on
normal return, 500 on throw), any other truthy purpose is logged and
ignored with no workflow invoked, and a missing purpose routes to the
generic mark-payment-paid handler. -/
theorem c8_dispatch_by_purpose (p : PaymentIntent) (db : DB) :
    (∀ m, p.metadata = some m → m.purpose = some "wallet" →
      webhookPost true ⟨"payment_intent.succeeded", p⟩ db =
        (match handlePaymentIntentWallet p db with
         | (HResult.ok, db1) => (200, db1)
         | (HResult.error _e, db1) => (500, db1))) ∧
    (∀ m s, p.metadata = some m → m.purpose = some s → s ≠ "wallet" → s ≠ "" →
      webhookPost true ⟨"payment_intent.succeeded", p⟩ db = (200, db)) ∧
    (purposeTruthy p = false →
      webhookPost true ⟨"payment_intent.succeeded", p⟩ db =
        (200, handlePaymentIntentSucceeded p db)) :=
  ⟨fun m hm hp => webhook_wallet_route p db m hm hp,
   fun m s hm hp hw he => webhook_other_purpose p db m s hm hp hw he,
   fun hp => webhook_no_purpose p db hp⟩

/-- Witness for C8: the dispatch theorem applied to a wallet-purpose
event, an unknown-purpose event and a no-metadata event. -/
theorem c8_dispatch_by_purpose_witness :
    (webhookPost true ⟨"payment_intent.succeeded", evA⟩ DB.empty =
      (match handlePaymentIntentWallet evA DB.empty with
       | (HResult.ok, db1) => (200, db1)
       | (HResult.error _e, db1) => (500, db1))) ∧
    webhookPost true ⟨"payment_intent.succeeded", evOther⟩ DB.empty = (200, DB.empty) ∧
    webhookPost true ⟨"payment_intent.succeeded", evPlain⟩ DB.empty =
      (200, handlePaymentIntentSucceeded evPlain DB.empty) :=
  ⟨(c8_dispatch_by_purpose evA DB.empty).1 ⟨some "u1", some "wallet"⟩ rfl rfl,
   (c8_dispatch_by_purpose evOther DB.empty).2.1 ⟨some "u1", some "topup"⟩ "topup" rfl rfl
     (by decide) (by decide),
   (c8_dispatch_by_purpose evPlain DB.empty).2.2 (by decide)⟩

/-- C9: the endpoint answers 400 with no dispatch when signature
verification fails, 200 with the store untouched on event types outside
the switch, 500 when the wallet handler throws, and 200 when it returns
normally. -/
theorem c9_boundary_status_codes (ev : StripeEvent) (db : DB) :
    (webhookPost false ev db = (400, db)) ∧
    (ev.etype ≠ "payment_intent.succeeded" → ev.etype ≠ "payment_intent.payment_failed" →
      webhookPost true ev db = (200, db)) ∧
    (∀ m msg d, ev.etype = "payment_intent.succeeded" → ev.obj.metadata = some m →
      m.purpose = some "wallet" →
      handlePaymentIntentWallet ev.obj db = (HResult.error msg, d) →
      webhookPost true ev db = (500, d)) ∧
    (∀ m d, ev.etype = "payment_intent.succeeded" → ev.obj.metadata = some m →
      m.purpose = some "wallet" →
      handlePaymentIntentWallet ev.obj db = (HResult.ok, d) →
      webhookPost true ev db = (200, d)) := by
  refine ⟨webhook_bad_sig ev db, fun h1 h2 => webhook_unknown_type ev db h1 h2, ?_, ?_⟩
  · intro m msg d ht hm hp hh
    obtain ⟨t, o⟩ := ev
    cases ht
    rw [webhook_wallet_route o db m hm hp, hh]
  · intro m d ht hm hp hh
    obtain ⟨t, o⟩ := ev
    cases ht
    rw [webhook_wallet_route o db m hm hp, hh]

/-- Witness for C9: the boundary theorem applied to a forged delivery, a
`charge.refunded` event, a wallet event whose handler throws, and the
Scenario A wallet event whose handler returns normally. -/
theorem c9_boundary_status_codes_witness :
    webhookPost false ⟨"payment_intent.succeeded", evA⟩ DB.empty = (400, DB.empty) ∧
    webhookPost true evRefund DB.empty = (200, DB.empty) ∧
    webhookPost true ⟨"payment_intent.succeeded", evNoUser⟩ DB.empty = (500, DB.empty) ∧
    webhookPost true ⟨"payment_intent.succeeded", evA⟩ DB.empty = (200, dbAfterA) :=
  ⟨(c9_boundary_status_codes ⟨"payment_intent.succeeded", evA⟩ DB.empty).1,
   (c9_boundary_status_codes evRefund DB.empty).2.1 (by decide) (by decide),
   (c9_boundary_status_codes ⟨"payment_intent.succeeded", evNoUser⟩ DB.empty).2.2.1
     ⟨none, some "wallet"⟩ "Missing userId in payment metadata" DB.empty rfl rfl rfl
     (by decide),
   (c9_boundary_status_codes ⟨"payment_intent.succeeded", evA⟩ DB.empty).2.2.2
     ⟨some "u1", some "wallet"⟩ dbAfterA rfl rfl rfl
     (by norm_num +decide [handlePaymentIntentWallet, walletLookup, walletCommit,
        evA, DB.empty, dbAfterA, strFalsy])⟩

/-- C10: when no payment record matches the intent id, the generic
succeeded handler performs no writes at all (its create branch is
commented out) and the endpoint still acknowledges with 200. -/
theorem c10_generic_handler_no_record_noop (p : PaymentIntent) (db : DB) :
    (db.payments.filter (fun r => r.paymentId = p.id) = [] →
      handlePaymentIntentSucceeded p db = db) ∧
    (db.payments.filter (fun r => r.paymentId = p.id) = [] → purposeTruthy p = false →
      webhookPost true ⟨"payment_intent.succeeded", p⟩ db = (200, db)) := by
  constructor
  · intro h
    unfold handlePaymentIntentSucceeded
    rw [h]
  · intro h hp
    rw [webhook_no_purpose p db hp]
    unfold handlePaymentIntentSucceeded
    rw [h]

/-- Witness for C10: the no-op theorem applied to the no-metadata event on
the empty store. -/
theorem c10_generic_handler_no_record_noop_witness :
    handlePaymentIntentSucceeded evPlain DB.empty = DB.empty ∧
    webhookPost true ⟨"payment_intent.succeeded", evPlain⟩ DB.empty = (200, DB.empty) :=
  ⟨(c10_generic_handler_no_record_noop evPlain DB.empty).1 (by decide),
   (c10_generic_handler_no_record_noop evPlain DB.empty).2 (by decide) (by decide)⟩

end StripeWebHook
